import Mathlib

/-!
# vxfiber/v2-reports: the work-order report (`a1/main.go`) and the inventory walk (`kelag/main.go`)

Both programs are sequential `main` functions that talk to external collaborators
(configuration, environment, gRPC services, the time-zone database, the file system and
the spreadsheet library).  The embedding makes these collaborators explicit:

* a `World` record holds the answer every external call gives in one run;
* a program is a value of `Run α`: the ordered trace of externally visible events it
  produced, and either its result or the message of the Go panic that ended it.

The generated protobuf types are declared outside the repository; they are modelled by the
fields the programs read. A message field that is a pointer in the generated code is an
`Option`, and reading through a nil one is a panic. An RPC answer is a function of the
requested id. Log lines are recorded with their message and work-order id; the deferred
`Close` calls are not modelled.
-/

namespace Reports

/-! ## Execution model -/

/-- Authentication context attached to outbound calls: `auth.WithAuth` and `auth.WithActor`. -/
structure Ctx where
  Token : String
  ActorId : String
  deriving DecidableEq, Repr

/-- One call of `f.SetCellValue(sheet, cell, value)`. -/
structure CellWrite where
  sheet : String
  cell : String
  value : String
  deriving DecidableEq, Repr

/-- Externally visible events of a run, in program order. -/
inductive Event
  | log (msg : String) (id : String)
  | dial (target : String)
  | rpc (ctx : Ctx) (method : String) (arg : String)
  | createFile (path : String)
  | setCell (c : CellWrite)
  | saveFile (path : String) (cells : List CellWrite)
  | stdout (line : String)
  deriving DecidableEq, Repr

/-- Outcome of running a piece of Go code: the events it produced and either its value or
the message of the panic that stopped it. -/
structure Run (α : Type) where
  trace : List Event
  val : Except String α

namespace Run

/-- Code that returns `a` without any event. -/
def ret {α : Type} (a : α) : Run α := ⟨[], .ok a⟩

/-- Sequencing: a panic in the first part stops the run, keeping the trace so far. -/
def andThen {α β : Type} (m : Run α) (f : α → Run β) : Run β :=
  match m.val with
  | .error e => ⟨m.trace, .error e⟩
  | .ok a => ⟨m.trace ++ (f a).trace, (f a).val⟩

instance : Monad Run where
  pure := ret
  bind := andThen

end Run

/-- Go `panic(msg)`. -/
def goPanic {α : Type} (msg : String) : Run α := ⟨[], .error msg⟩

/-- Record one event. -/
def emit (e : Event) : Run Unit := ⟨[e], .ok ()⟩

/-- Record a sequence of `f.SetCellValue` calls, in order. -/
def setCells (cells : List CellWrite) : Run Unit := ⟨cells.map Event.setCell, .ok ()⟩

/-- Go `x, err := call; if err != nil panic(err)`. -/
def must {α : Type} (r : Except String α) : Run α :=
  match r with
  | .error err => goPanic err
  | .ok x => pure x

/-- Message of the runtime panic raised by reading a field through a nil pointer. -/
def nilDeref : String := "runtime error: invalid memory address or nil pointer dereference"

/-! ## Data model (fields read by the programs) -/

/-- A `*timestamppb.Timestamp` that is not nil. -/
structure Timestamp where
  seconds : Int
  nanos : Int
  deriving DecidableEq, Repr

/-- Modelled from the spec: the enum `workorderpb.Status` is declared outside src/; the spec
lists the work-order statuses active, completed, cancelled and aborted, next to the
protobuf zero value. -/
inductive WorkOrderStatus
  | STATUS_UNSPECIFIED
  | STATUS_ACTIVE
  | STATUS_COMPLETED
  | STATUS_CANCELLED
  | STATUS_ABORTED
  deriving DecidableEq, Repr

/-- Modelled from the spec: the enum `installationpb.Status` is declared outside src/; the
program only compares it with `STATUS_COMPLETED`, every other value is kept by its code. -/
inductive InstallationStatus
  | STATUS_COMPLETED
  | STATUS_OTHER (code : Int)
  deriving DecidableEq, Repr

/-- Modelled from the spec: the enum `installationpb.ModuleName` is declared outside src/; the
one recognised name is "ONT sending", every other value is kept by its code. -/
inductive ModuleName
  | MODULE_NAME_ONT_SENDING
  | MODULE_NAME_OTHER (code : Int)
  deriving DecidableEq, Repr

structure WorkOrder where
  Id : String
  ExternalSubscriptionReference : String
  InstallationId : String
  Status : WorkOrderStatus
  EndedAt : Option Timestamp
  deriving DecidableEq, Repr

structure Subscription where
  ExternalId : String
  AccesspointId : String
  CreatedAt : Option Timestamp
  deriving DecidableEq, Repr

structure AccessPoint where
  ExternalId : String
  deriving DecidableEq, Repr

/-- Response of `accesspointpb` `GetById`; the message field is a pointer and may be nil. -/
structure AccessPointResponse where
  AccessPoint : Option AccessPoint
  deriving DecidableEq, Repr

structure Module where
  Name : ModuleName
  Completed : Bool
  CompletedAt : Option Timestamp
  deriving DecidableEq, Repr

structure Installation where
  Status : InstallationStatus
  Modules : List Module
  deriving DecidableEq, Repr

/-- Response of `installationpb` `GetByID`; the message field is a pointer and may be nil. -/
structure InstallationResponse where
  Installation : Option Installation
  deriving DecidableEq, Repr

structure Pop where
  Id : String
  deriving DecidableEq, Repr

structure Device where
  Id : String
  deriving DecidableEq, Repr

/-- A loaded `*time.Location`. -/
structure Location where
  name : String
  deriving DecidableEq, Repr

/-- Answers of the external collaborators in one run. An `Except` value is Go's
`(value, err)` pair: `.error e` is `err != nil` with message `e`. -/
structure World where
  /-- Go `viper.GetString(key)`. -/
  viperGetString : String → String
  /-- Go `os.Getenv(name)`. -/
  osGetenv : String → String
  /-- Go `grpc.NewClient(target, ...)`. -/
  grpcNewClient : String → Except String Unit
  /-- Go `woClient.Get(ctx, ...)`, ordered by creation time ascending. -/
  woGet : Except String (List WorkOrder)
  /-- Go `subClient.GetByID(ctx, Id)`. -/
  subGetByID : String → Except String Subscription
  /-- Go `apClient.GetById(ctx, Id)`. -/
  apGetById : String → Except String AccessPointResponse
  /-- Go `inClient.GetByID(ctx, Id)`. -/
  inGetByID : String → Except String InstallationResponse
  /-- Go `time.LoadLocation(name)`. -/
  loadLocation : String → Except String Location
  /-- Go `ts.AsTime().In(loc).Format(layout)`. -/
  timeFormat : Timestamp → Location → String → String
  /-- Go `os.Create(path)`. -/
  osCreate : String → Except String Unit
  /-- Go `f.NewSheet(name)`. -/
  newSheet : String → Except String Int
  /-- Go `f.SaveAs(path)`. -/
  saveAs : String → Except String Unit
  /-- Go `invClient.GetPops(ctx)`. -/
  getPops : Except String (List Pop)
  /-- Go `invClient.GetDevices(ctx, PopId)`. -/
  getDevices : String → Except String (List Device)

/-! ## a1/main.go -/

namespace A1

/-- Function `formatAustrianTime`: "-" for nil; otherwise the instant rendered in
Europe/Vienna, a panic when the zone cannot be loaded. -/
def formatAustrianTime (w : World) (ts : Option Timestamp) : Run String :=
  match ts with
  | none => pure "-"
  | some t =>
    match w.loadLocation "Europe/Vienna" with
    | .error err => goPanic ("could not load Europe/Vienna location: " ++ err)
    | .ok loc => pure (w.timeFormat t loc "2006-01-02 15:04:05 MST")

abbrev Status := String

def Cancelled : Status := "Cancelled"
def Aborted : Status := "Aborted"
def One : Status := "Provided to IKB"
def Two : Status := "Finished by IKB, ONT not sent"
def Three : Status := "Finished by IKB, ONT Sent"
def Four : Status := "Activated, ONT discovered"

structure Csv where
  ServiceProviderReference : String
  NetworkOwnerReference : String
  Status : Status
  SubscriptionCreatedAt : String
  WorkOrderCompletedAt : String
  ONTSentAt : String
  deriving DecidableEq, Repr

/-- The loop `for _, module := range in.Installation.Modules` of `main`, threading the
local `ontSent` and the record `c`. -/
def scanModules (w : World) : List Module → Bool → Csv → Run (Bool × Csv)
  | [], ontSent, c => pure (ontSent, c)
  | module :: rest, ontSent, c =>
    if module.Name = ModuleName.MODULE_NAME_ONT_SENDING then
      if module.Completed then do
        let s ← formatAustrianTime w module.CompletedAt
        scanModules w rest true { c with ONTSentAt := s }
      else scanModules w rest ontSent c
    else scanModules w rest ontSent c

/-- The statements of the loop body after the module scan: the three `if`s that settle
`c.Status` from `ontSent`, `statusSet` and the work-order status. -/
def settleStatus (wo : WorkOrder) (ontSent statusSet : Bool) (c : Csv) : Csv :=
  let (c, statusSet) :=
    if ontSent && !statusSet then ({ c with Status := Three }, true) else (c, statusSet)
  let (c, statusSet) :=
    if wo.Status = WorkOrderStatus.STATUS_COMPLETED && !statusSet then
      ({ c with Status := Two }, true)
    else (c, statusSet)
  if !statusSet then { c with Status := One } else c

/-- Lines 147-199 of the loop body: the record `c` built from the fetched messages. Every
normal exit (the two `continue`s and the fall-through) comes right after one
`csvs = append(csvs, c)`; the function returns that `c`. -/
def buildRecord (w : World) (wo : WorkOrder) (sub : Subscription) (ap : AccessPointResponse)
    (inr : InstallationResponse) : Run Csv :=
  match ap.AccessPoint with
  | none => goPanic nilDeref
  | some accessPoint => do
    let subscriptionCreatedAt ← formatAustrianTime w sub.CreatedAt
    let workOrderCompletedAt ← formatAustrianTime w wo.EndedAt
    let c : Csv :=
      { ServiceProviderReference := sub.ExternalId
        NetworkOwnerReference := accessPoint.ExternalId
        Status := ""
        SubscriptionCreatedAt := subscriptionCreatedAt
        WorkOrderCompletedAt := workOrderCompletedAt
        ONTSentAt := "-" }
    if wo.Status = WorkOrderStatus.STATUS_CANCELLED then do
      emit (.log "Work order cancelled, skipping further processing" wo.Id)
      pure { c with Status := Cancelled }
    else if wo.Status = WorkOrderStatus.STATUS_ABORTED then do
      emit (.log "Work order aborted, skipping further processing" wo.Id)
      pure { c with Status := Aborted }
    else
      match inr.Installation with
      | none => goPanic nilDeref
      | some installation => do
        let statusSet : Bool := installation.Status = InstallationStatus.STATUS_COMPLETED
        let c : Csv := if statusSet then { c with Status := Four } else c
        let (ontSent, c) ← scanModules w installation.Modules false c
        pure (settleStatus wo ontSent statusSet c)

/-- Body of the loop `for _, wo := range wos.WorkOrders` of `main`: the three fetches
(lines 126-145), each fatal on error, then the record. -/
def processWorkOrder (w : World) (ctx : Ctx) (wo : WorkOrder) : Run Csv := do
  emit (.log "Processing work order" wo.Id)
  emit (.rpc ctx "SubscriptionService.GetByID" wo.ExternalSubscriptionReference)
  match w.subGetByID wo.ExternalSubscriptionReference with
  | .error err =>
    goPanic ("failed to get subscription by ID " ++ wo.ExternalSubscriptionReference
      ++ ": " ++ err)
  | .ok sub => do
    emit (.rpc ctx "AccessPointService.GetById" sub.AccesspointId)
    match w.apGetById sub.AccesspointId with
    | .error err =>
      goPanic ("failed to get access point by ID " ++ sub.AccesspointId ++ ": " ++ err)
    | .ok ap => do
      emit (.rpc ctx "InstallationService.GetByID" wo.InstallationId)
      match w.inGetByID wo.InstallationId with
      | .error err =>
        goPanic ("failed to get installation by ID " ++ wo.InstallationId ++ ": " ++ err)
      | .ok inr => buildRecord w wo sub ap inr

/-- The aggregation loop of `main`: `csvs` grows by one record per work order, in order;
a panic in a body ends the loop. -/
def aggregate (w : World) (ctx : Ctx) : List WorkOrder → List Csv → Run (List Csv)
  | [], csvs => pure csvs
  | wo :: rest, csvs => do
    let c ← processWorkOrder w ctx wo
    aggregate w ctx rest (csvs ++ [c])

/-- The sheet the report is written to. -/
def sheetName : String := "Work Orders"

/-- The six `SetCellValue` calls that write the header row. -/
def headerCells : List CellWrite :=
  [ ⟨sheetName, "A1", "Service Provider Reference"⟩,
    ⟨sheetName, "B1", "Network Owner Reference"⟩,
    ⟨sheetName, "C1", "Status"⟩,
    ⟨sheetName, "D1", "Subscription Created At"⟩,
    ⟨sheetName, "E1", "Work Order Completed At"⟩,
    ⟨sheetName, "F1", "ONT Sent At"⟩ ]

/-- Go `fmt.Sprintf("<col>%d", row)`. -/
def cellName (col : String) (row : Nat) : String := col ++ toString row

/-- The six `SetCellValue` calls of one iteration of `for i, csv := range csvs`. -/
def rowCells (row : Nat) (csv : Csv) : List CellWrite :=
  [ ⟨sheetName, cellName "A" row, csv.ServiceProviderReference⟩,
    ⟨sheetName, cellName "B" row, csv.NetworkOwnerReference⟩,
    ⟨sheetName, cellName "C" row, csv.Status⟩,
    ⟨sheetName, cellName "D" row, csv.SubscriptionCreatedAt⟩,
    ⟨sheetName, cellName "E" row, csv.WorkOrderCompletedAt⟩,
    ⟨sheetName, cellName "F" row, csv.ONTSentAt⟩ ]

/-- The loop `for i, csv := range csvs` of `main`, from index `i` on, appending its
`SetCellValue` calls to those made so far; `row := i + 2`. -/
def writeRows : Nat → List Csv → List CellWrite → List CellWrite
  | _, [], cells => cells
  | i, csv :: rest, cells => writeRows (i + 1) rest (cells ++ rowCells (i + 2) csv)

/-- The report emitter of `main`: from `os.Create` to `os.Exit(0)`. -/
def writeReport (w : World) (csvs : List Csv) : Run Unit := do
  must (w.osCreate "output.xlsx")
  emit (.createFile "output.xlsx")
  let _index ← must (w.newSheet sheetName)
  let cells := writeRows 0 csvs headerCells
  setCells cells
  match w.saveAs "output.xlsx" with
  | .error err => goPanic ("failed to save file: " ++ err)
  | .ok _ => do
    emit (.saveFile "output.xlsx" cells)
    emit (.stdout "Excel file created successfully: output.xlsx")
    emit (.stdout "You can open it with Excel or any compatible spreadsheet software.")
    emit (.stdout "Done.")

/-- Lines 90-237 of `main`: the run once the authentication context `ctx` is set up.
Deferred `Close` calls are not modelled. -/
def runReport (w : World) (ctx : Ctx) : Run Unit := do
  emit (.dial "localhost:9999")
  must (w.grpcNewClient "localhost:9999")
  emit (.rpc ctx "WorkOrderService.Get" "")
  let wos ← must w.woGet
  emit (.dial "localhost:9998")
  must (w.grpcNewClient "localhost:9998")
  emit (.dial "localhost:9997")
  must (w.grpcNewClient "localhost:9997")
  let csvs ← aggregate w ctx wos []
  writeReport w csvs

/-- Function `main` of a1/main.go: lines 65-88 resolve the credential and the actor, the
rest is `runReport`. -/
def main (w : World) : Run Unit :=
  let token := w.viperGetString "vault-token"
  let token := if token = "" then w.osGetenv "VAULT_TOKEN" else token
  if token = "" then goPanic "vault token is not set"
  else
    let foID := w.viperGetString "fiber-operator-id"
    let foID := if foID = "" then w.osGetenv "FIBER_OPERATOR_ID" else foID
    runReport w { Token := token, ActorId := foID }

end A1

/-! ## kelag/main.go -/

namespace Kelag

/-- The loop `for _, pop := range pops.Pops` of `main`; the inner loop over the devices
has an empty body. -/
def walkPops (w : World) (ctx : Ctx) : List Pop → Run Unit
  | [] => pure ()
  | pop :: rest => do
    emit (.rpc ctx "inventory.GetDevices" pop.Id)
    let _devices ← must (w.getDevices pop.Id)
    walkPops w ctx rest

/-- Lines 43-65 of `main`: the run once the authentication context `ctx` is set up. -/
def runWalk (w : World) (ctx : Ctx) : Run Unit := do
  emit (.dial "localhost:9999")
  must (w.grpcNewClient "localhost:9999")
  emit (.rpc ctx "inventory.GetPops" "")
  let pops ← must w.getPops
  walkPops w ctx pops

/-- Function `main` of kelag/main.go: lines 18-41 resolve the credential and the actor, the
rest is `runWalk`. -/
def main (w : World) : Run Unit :=
  let token := w.viperGetString "vault-token"
  let token := if token = "" then w.osGetenv "VAULT_TOKEN" else token
  if token = "" then goPanic "vault token is not set"
  else
    let foID := w.viperGetString "fiber-operator-id"
    let foID := if foID = "" then w.osGetenv "FIBER_OPERATOR_ID" else foID
    runWalk w { Token := token, ActorId := foID }

end Kelag

open A1

/-! ## Definitions used to state the properties -/

/-- A module named "ONT sending" whose completion flag is set. -/
def isOntSent (m : Module) : Bool :=
  decide (m.Name = ModuleName.MODULE_NAME_ONT_SENDING) && m.Completed

/-- The last module, in list order, named "ONT sending" with its completion flag set. -/
def lastOntSent (ms : List Module) : Option Module := (ms.filter isOntSent).getLast?

/-- Events that are part of the report: the output file, the cells written to the sheet and
the closing messages. -/
def Event.isOutput : Event → Bool
  | .createFile _ => true
  | .setCell _ => true
  | .saveFile _ _ => true
  | .stdout _ => true
  | _ => false

/-- Every event of the run satisfies `P`. -/
structure TraceAll {α : Type} (P : Event → Prop) (m : Run α) : Prop where
  all : ∀ e ∈ m.trace, P e

/-- One of the three fetches of the loop body returns an error for this work order. -/
def fetchFails (w : World) (wo : WorkOrder) : Bool :=
  match w.subGetByID wo.ExternalSubscriptionReference with
  | .error _ => true
  | .ok sub =>
    match w.apGetById sub.AccesspointId with
    | .error _ => true
    | .ok _ =>
      match w.inGetByID wo.InstallationId with
      | .error _ => true
      | .ok _ => false

/-- The three fetches of the loop body return without error and carry the messages the body
reads: the access point, and the installation unless the work order is cancelled or aborted
(the body leaves the iteration before reading it then). -/
def fetchesSucceed (w : World) (wo : WorkOrder) : Bool :=
  match w.subGetByID wo.ExternalSubscriptionReference with
  | .error _ => false
  | .ok sub =>
    match w.apGetById sub.AccesspointId with
    | .ok ⟨some _⟩ =>
      (match w.inGetByID wo.InstallationId with
      | .ok inr =>
        decide (wo.Status = WorkOrderStatus.STATUS_CANCELLED) ||
          decide (wo.Status = WorkOrderStatus.STATUS_ABORTED) ||
          inr.Installation.isSome
      | .error _ => false)
    | _ => false

/-- A run that ends in a panic and produces no part of the report. -/
structure FailsQuietly {α : Type} (m : Run α) : Prop where
  err : ∃ e, m.val = .error e
  quiet : TraceAll (fun e => e.isOutput = false) m

/-- The bearer credential as `main` resolves it: configuration first, then environment. -/
def resolvedToken (w : World) : String :=
  if w.viperGetString "vault-token" = "" then w.osGetenv "VAULT_TOKEN"
  else w.viperGetString "vault-token"

/-- The fiber-operator id as `main` resolves it: configuration first, then environment. -/
def resolvedActor (w : World) : String :=
  if w.viperGetString "fiber-operator-id" = "" then w.osGetenv "FIBER_OPERATOR_ID"
  else w.viperGetString "fiber-operator-id"

/-! ## A concrete run, used to instantiate the theorems -/

/-- A completed "ONT sending" module with completion instant `t` seconds. -/
def ontModule (t : Int) : Module :=
  { Name := ModuleName.MODULE_NAME_ONT_SENDING, Completed := true, CompletedAt := some ⟨t, 0⟩ }

/-- An "ONT sending" module that is not completed yet. -/
def pendingOnt : Module :=
  { Name := ModuleName.MODULE_NAME_ONT_SENDING, Completed := false, CompletedAt := none }

/-- A completed module with another name. -/
def otherModule : Module :=
  { Name := ModuleName.MODULE_NAME_OTHER 2, Completed := true, CompletedAt := some ⟨3, 0⟩ }

def instDone : Installation :=
  { Status := InstallationStatus.STATUS_COMPLETED, Modules := [ontModule 5, ontModule 7] }

def instSent : Installation :=
  { Status := InstallationStatus.STATUS_OTHER 1
    Modules := [ontModule 5, otherModule, ontModule 7, pendingOnt] }

def instOpen : Installation :=
  { Status := InstallationStatus.STATUS_OTHER 1, Modules := [otherModule, pendingOnt] }

def woCancelled : WorkOrder :=
  ⟨"w1", "s1", "i-done", WorkOrderStatus.STATUS_CANCELLED, some ⟨9, 0⟩⟩

def woAborted : WorkOrder :=
  ⟨"w2", "s2", "i-sent", WorkOrderStatus.STATUS_ABORTED, none⟩

def woActivated : WorkOrder :=
  ⟨"w3", "s3", "i-done", WorkOrderStatus.STATUS_COMPLETED, some ⟨11, 0⟩⟩

def woSent : WorkOrder :=
  ⟨"w4", "s4", "i-sent", WorkOrderStatus.STATUS_COMPLETED, some ⟨12, 0⟩⟩

def woNotSent : WorkOrder :=
  ⟨"w5", "s5", "i-open", WorkOrderStatus.STATUS_COMPLETED, some ⟨13, 0⟩⟩

def woProvided : WorkOrder :=
  ⟨"w6", "s6", "i-open", WorkOrderStatus.STATUS_ACTIVE, none⟩

def woDiscovered : WorkOrder :=
  ⟨"w7", "s7", "i-done", WorkOrderStatus.STATUS_ACTIVE, none⟩

/-- A cancelled work order whose installation response carries no message. -/
def woCancelledBare : WorkOrder :=
  ⟨"w9", "s9", "i-nil", WorkOrderStatus.STATUS_CANCELLED, none⟩

/-- A cancelled work order whose installation cannot be fetched. -/
def woBroken : WorkOrder :=
  ⟨"w8", "s8", "i-gone", WorkOrderStatus.STATUS_CANCELLED, none⟩

/-- The work orders the demo world lists, in creation order. -/
def demoWorkOrders : List WorkOrder :=
  [woCancelled, woAborted, woActivated, woSent, woNotSent, woProvided, woCancelledBare]

def demoSub (id : String) : Subscription :=
  { ExternalId := "SP-" ++ id, AccesspointId := "ap-" ++ id, CreatedAt := some ⟨1, 0⟩ }

def demoAp (id : String) : AccessPoint := { ExternalId := "NO-" ++ id }

def demoCtx : Ctx := { Token := "tok", ActorId := "fo-1" }

/-- A world in which every call succeeds; the token comes from the configuration, the
fiber-operator id from the environment, and an instant is rendered as "T" followed by its
seconds. -/
def demoWorld : World :=
  { viperGetString := fun k => if k = "vault-token" then "tok" else ""
    osGetenv := fun k => if k = "FIBER_OPERATOR_ID" then "fo-1" else ""
    grpcNewClient := fun _ => .ok ()
    woGet := .ok demoWorkOrders
    subGetByID := fun id => .ok (demoSub id)
    apGetById := fun id => .ok ⟨some (demoAp id)⟩
    inGetByID := fun id =>
      if id = "i-done" then .ok ⟨some instDone⟩
      else if id = "i-sent" then .ok ⟨some instSent⟩
      else if id = "i-open" then .ok ⟨some instOpen⟩
      else if id = "i-nil" then .ok ⟨none⟩
      else .error "installation not found"
    loadLocation := fun name => .ok ⟨name⟩
    timeFormat := fun t _ _ => "T" ++ toString t.seconds
    osCreate := fun _ => .ok ()
    newSheet := fun _ => .ok 1
    saveAs := fun _ => .ok ()
    getPops := .ok [⟨"pop-1"⟩, ⟨"pop-2"⟩]
    getDevices := fun _ => .ok [] }

/-- The demo world without the time-zone database. -/
def noZoneWorld : World :=
  { demoWorld with loadLocation := fun _ => .error "unknown time zone Europe/Vienna" }

/-- The demo world whose access-point service answers without error and without message. -/
def noAccessPointWorld : World :=
  { demoWorld with apGetById := fun _ => .ok ⟨none⟩ }

/-- The demo world in which the output file cannot be created. -/
def noFileWorld : World :=
  { demoWorld with osCreate := fun _ => .error "open output.xlsx: permission denied" }

/-- The demo world with no credential in the configuration or the environment. -/
def noTokenWorld : World :=
  { demoWorld with viperGetString := fun _ => "" }

/-- The demo world with no fiber-operator id in the configuration or the environment. -/
def noActorWorld : World :=
  { demoWorld with osGetenv := fun _ => "" }

/-- The demo world whose last work order, a cancelled one, has no installation to fetch. -/
def brokenWorld : World :=
  { demoWorld with woGet := .ok [woActivated, woSent, woBroken] }

/-! ## Lemmas on the execution model -/

@[simp] theorem Run.val_pure {α : Type} (a : α) : (pure a : Run α).val = .ok a := rfl
@[simp] theorem Run.trace_pure {α : Type} (a : α) : (pure a : Run α).trace = [] := rfl
@[simp] theorem Run.val_bind {α β : Type} (m : Run α) (f : α → Run β) :
    (m >>= f).val = match m.val with | .error e => .error e | .ok a => (f a).val := by
  show (Run.andThen m f).val = _
  unfold Run.andThen
  cases m.val <;> rfl
@[simp] theorem Run.trace_bind {α β : Type} (m : Run α) (f : α → Run β) :
    (m >>= f).trace = match m.val with | .error _ => m.trace | .ok a => m.trace ++ (f a).trace := by
  show (Run.andThen m f).trace = _
  unfold Run.andThen
  cases m.val <;> rfl
@[simp] theorem val_goPanic {α : Type} (msg : String) : (goPanic msg : Run α).val = .error msg := rfl
@[simp] theorem trace_goPanic {α : Type} (msg : String) : (goPanic msg : Run α).trace = [] := rfl
@[simp] theorem val_emit (e : Event) : (emit e).val = .ok () := rfl
@[simp] theorem trace_emit (e : Event) : (emit e).trace = [e] := rfl

theorem formatAustrianTime_trace (w : World) (ts : Option Timestamp) :
    (formatAustrianTime w ts).trace = [] := by
  unfold formatAustrianTime
  cases ts with
  | none => rfl
  | some t =>
    cases h : w.loadLocation "Europe/Vienna" <;> simp

theorem formatAustrianTime_total (w : World) (loc : Location)
    (hloc : w.loadLocation "Europe/Vienna" = .ok loc) (ts : Option Timestamp) :
    ∃ s, (formatAustrianTime w ts).val = .ok s := by
  unfold formatAustrianTime
  cases ts with
  | none => exact ⟨"-", rfl⟩
  | some t => simp [hloc]

theorem scanModules_trace (w : World) :
    ∀ (ms : List Module) (b : Bool) (c : Csv), (scanModules w ms b c).trace = [] := by
  intro ms
  induction ms with
  | nil => intro b c; rfl
  | cons m rest ih =>
    intro b c
    unfold scanModules
    by_cases hn : m.Name = ModuleName.MODULE_NAME_ONT_SENDING
    · by_cases hc : m.Completed = true
      · simp only [hn, hc, if_true, Run.trace_bind, formatAustrianTime_trace]
        cases (formatAustrianTime w m.CompletedAt).val <;> simp [ih]
      · simp [hn, hc, ih]
    · simp [hn, ih]

theorem scanModules_total (w : World) (loc : Location)
    (hloc : w.loadLocation "Europe/Vienna" = .ok loc) :
    ∀ (ms : List Module) (b : Bool) (c : Csv), ∃ r, (scanModules w ms b c).val = .ok r := by
  intro ms
  induction ms with
  | nil => intro b c; exact ⟨(b, c), rfl⟩
  | cons m rest ih =>
    intro b c
    unfold scanModules
    by_cases hn : m.Name = ModuleName.MODULE_NAME_ONT_SENDING
    · by_cases hc : m.Completed = true
      · obtain ⟨s, hs⟩ := formatAustrianTime_total w loc hloc m.CompletedAt
        simp only [hn, hc, if_true, Run.val_bind, hs]
        exact ih _ _
      · simp only [hn, hc, if_true]
        exact ih _ _
    · simp only [hn, if_false]
      exact ih _ _

theorem scanModules_ok (w : World) :
    ∀ (ms : List Module) (b : Bool) (c : Csv) (r : Bool × Csv),
      (scanModules w ms b c).val = .ok r →
      r.1 = (b || ms.any isOntSent) ∧ r.2 = { c with ONTSentAt := r.2.ONTSentAt } ∧
      (lastOntSent ms = none → r.2.ONTSentAt = c.ONTSentAt) ∧
      (∀ m, lastOntSent ms = some m →
        (formatAustrianTime w m.CompletedAt).val = .ok r.2.ONTSentAt) := by
  intro ms
  induction ms with
  | nil =>
    intro b c r h
    simp [scanModules] at h
    subst h
    simp [lastOntSent]
  | cons m rest ih =>
    intro b c r h
    unfold scanModules at h
    by_cases hn : m.Name = ModuleName.MODULE_NAME_ONT_SENDING
    · by_cases hc : m.Completed = true
      · simp only [hn, hc, if_true, Run.val_bind] at h
        cases hs : (formatAustrianTime w m.CompletedAt).val with
        | error e => simp [hs] at h
        | ok s =>
          simp only [hs] at h
          obtain ⟨h1, h2, h3, h4⟩ := ih _ _ _ h
          have hm : isOntSent m = true := by simp [isOntSent, hn, hc]
          have hl : lastOntSent (m :: rest) = some ((lastOntSent rest).getD m) := by
            simp [lastOntSent, List.filter_cons, hm, List.getLast?_cons]
          refine ⟨?_, ?_, ?_, ?_⟩
          · simp [h1, hm]
          · rw [h2]
          · intro hnone; rw [hl] at hnone; cases hnone
          · intro m' hm'
            rw [hl] at hm'
            cases hr : lastOntSent rest with
            | none =>
              rw [hr] at hm'
              simp at hm'
              subst hm'
              rw [h3 hr]
              exact hs
            | some m2 =>
              rw [hr] at hm'
              simp at hm'
              subst hm'
              exact h4 _ hr
      · simp only [hn, hc, if_true] at h
        obtain ⟨h1, h2, h3, h4⟩ := ih _ _ _ h
        have hm : isOntSent m = false := by simp [isOntSent, hc]
        have hl : lastOntSent (m :: rest) = lastOntSent rest := by
          simp [lastOntSent, List.filter_cons, hm]
        rw [hl]
        exact ⟨by simp [h1, hm], h2, h3, h4⟩
    · simp only [hn, if_false] at h
      obtain ⟨h1, h2, h3, h4⟩ := ih _ _ _ h
      have hm : isOntSent m = false := by simp [isOntSent, hn]
      have hl : lastOntSent (m :: rest) = lastOntSent rest := by
        simp [lastOntSent, List.filter_cons, hm]
      rw [hl]
      exact ⟨by simp [h1, hm], h2, h3, h4⟩


theorem processWorkOrder_val (w : World) (ctx : Ctx) (wo : WorkOrder) (sub : Subscription)
    (apr : AccessPointResponse) (inr : InstallationResponse)
    (hsub : w.subGetByID wo.ExternalSubscriptionReference = .ok sub)
    (hap : w.apGetById sub.AccesspointId = .ok apr)
    (hin : w.inGetByID wo.InstallationId = .ok inr) :
    (processWorkOrder w ctx wo).val = (buildRecord w wo sub apr inr).val := by
  simp [processWorkOrder, hsub, hap, hin]

theorem buildRecord_ok (w : World) (wo : WorkOrder) (sub : Subscription)
    (apr : AccessPointResponse) (inr : InstallationResponse) (c : Csv)
    (h : (buildRecord w wo sub apr inr).val = .ok c) :
    ∃ ap s1 s2, apr.AccessPoint = some ap ∧
      (formatAustrianTime w sub.CreatedAt).val = .ok s1 ∧
      (formatAustrianTime w wo.EndedAt).val = .ok s2 ∧
      ((wo.Status = WorkOrderStatus.STATUS_CANCELLED ∧
          c = ⟨sub.ExternalId, ap.ExternalId, Cancelled, s1, s2, "-"⟩) ∨
       (wo.Status ≠ WorkOrderStatus.STATUS_CANCELLED ∧
          wo.Status = WorkOrderStatus.STATUS_ABORTED ∧
          c = ⟨sub.ExternalId, ap.ExternalId, Aborted, s1, s2, "-"⟩) ∨
       (wo.Status ≠ WorkOrderStatus.STATUS_CANCELLED ∧
          wo.Status ≠ WorkOrderStatus.STATUS_ABORTED ∧
          ∃ inst r, inr.Installation = some inst ∧
            (scanModules w inst.Modules false
              ⟨sub.ExternalId, ap.ExternalId,
                if inst.Status = InstallationStatus.STATUS_COMPLETED then Four else "",
                s1, s2, "-"⟩).val = .ok r ∧
            c = settleStatus wo r.1
              (decide (inst.Status = InstallationStatus.STATUS_COMPLETED)) r.2)) := by
  unfold buildRecord at h
  cases hap : apr.AccessPoint with
  | none => simp [hap] at h
  | some ap =>
    simp only [hap, Run.val_bind] at h
    cases h1 : (formatAustrianTime w sub.CreatedAt).val with
    | error e => simp [h1] at h
    | ok s1 =>
      simp only [h1] at h
      cases h2 : (formatAustrianTime w wo.EndedAt).val with
      | error e => simp [h2] at h
      | ok s2 =>
        simp only [h2] at h
        refine ⟨ap, s1, s2, rfl, rfl, rfl, ?_⟩
        by_cases hc : wo.Status = WorkOrderStatus.STATUS_CANCELLED
        · left
          simp [hc] at h
          exact ⟨hc, h.symm⟩
        · by_cases ha : wo.Status = WorkOrderStatus.STATUS_ABORTED
          · right; left
            simp [hc, ha] at h
            exact ⟨hc, ha, h.symm⟩
          · right; right
            refine ⟨hc, ha, ?_⟩
            simp only [hc, ha, if_false] at h
            cases hi : inr.Installation with
            | none => simp [hi] at h
            | some inst =>
              simp only [hi, Run.val_bind] at h
              by_cases hs : inst.Status = InstallationStatus.STATUS_COMPLETED
              · simp only [hs, decide_True, if_true] at h ⊢
                cases hr : (scanModules w inst.Modules false
                  ⟨sub.ExternalId, ap.ExternalId, Four, s1, s2, "-"⟩).val with
                | error e => simp [hr] at h
                | ok r =>
                  simp [hr] at h
                  exact ⟨inst, r, rfl, by simpa [hs] using hr, by rw [decide_eq_true hs]; exact h.symm⟩
              · simp only [hs, decide_False, if_false] at h ⊢
                cases hr : (scanModules w inst.Modules false
                  ⟨sub.ExternalId, ap.ExternalId, "", s1, s2, "-"⟩).val with
                | error e => simp [hr] at h
                | ok r =>
                  simp [hr] at h
                  exact ⟨inst, r, rfl, by simpa [hs] using hr, by rw [decide_eq_false hs]; exact h.symm⟩

theorem buildRecord_total (w : World) (loc : Location)
    (hloc : w.loadLocation "Europe/Vienna" = .ok loc)
    (wo : WorkOrder) (sub : Subscription) (ap : AccessPoint) (inr : InstallationResponse)
    (hinst : wo.Status = WorkOrderStatus.STATUS_CANCELLED ∨
      wo.Status = WorkOrderStatus.STATUS_ABORTED ∨ ∃ inst, inr.Installation = some inst) :
    ∃ c, (buildRecord w wo sub ⟨some ap⟩ inr).val = .ok c := by
  obtain ⟨s1, h1⟩ := formatAustrianTime_total w loc hloc sub.CreatedAt
  obtain ⟨s2, h2⟩ := formatAustrianTime_total w loc hloc wo.EndedAt
  unfold buildRecord
  simp only [Run.val_bind, h1, h2]
  by_cases hc : wo.Status = WorkOrderStatus.STATUS_CANCELLED
  · simp [hc]
  · by_cases ha : wo.Status = WorkOrderStatus.STATUS_ABORTED
    · simp [hc, ha]
    · rcases hinst with h | h | ⟨inst, hi⟩
      · exact absurd h hc
      · exact absurd h ha
      · simp only [hc, ha, if_false, hi, Run.val_bind]
        obtain ⟨r, hr⟩ := scanModules_total w loc hloc inst.Modules false
          (if decide (inst.Status = InstallationStatus.STATUS_COMPLETED) = true then
            { ServiceProviderReference := sub.ExternalId
              NetworkOwnerReference := ap.ExternalId
              Status := Four
              SubscriptionCreatedAt := s1
              WorkOrderCompletedAt := s2
              ONTSentAt := "-" }
           else
            { ServiceProviderReference := sub.ExternalId
              NetworkOwnerReference := ap.ExternalId
              Status := ""
              SubscriptionCreatedAt := s1
              WorkOrderCompletedAt := s2
              ONTSentAt := "-" })
        rw [hr]
        exact ⟨_, rfl⟩


theorem settleStatus_status (wo : WorkOrder) (ontSent statusSet : Bool) (c : Csv) :
    (settleStatus wo ontSent statusSet c).Status =
      if statusSet = true then c.Status
      else if ontSent = true then Three
      else if wo.Status = WorkOrderStatus.STATUS_COMPLETED then Two
      else A1.One := by
  by_cases h : wo.Status = WorkOrderStatus.STATUS_COMPLETED <;>
    cases ontSent <;> cases statusSet <;> simp [settleStatus, h]

theorem settleStatus_ontSentAt (wo : WorkOrder) (ontSent statusSet : Bool) (c : Csv) :
    (settleStatus wo ontSent statusSet c).ONTSentAt = c.ONTSentAt := by
  by_cases h : wo.Status = WorkOrderStatus.STATUS_COMPLETED <;>
    cases ontSent <;> cases statusSet <;> simp [settleStatus, h]

theorem lastOntSent_eq_none_iff (ms : List Module) :
    lastOntSent ms = none ↔ ∀ m ∈ ms, isOntSent m = false := by
  simp [lastOntSent, List.filter_eq_nil_iff]

theorem lastOntSent_mem (ms : List Module) (m : Module) (h : lastOntSent ms = some m) :
    m ∈ ms ∧ isOntSent m = true := by
  have hm : m ∈ ms.filter isOntSent := List.mem_of_getLast?_eq_some h
  simpa [List.mem_filter] using hm

/-- What the loop body yields for a work order that is neither cancelled nor aborted. -/
theorem processWorkOrder_open (w : World) (ctx : Ctx) (wo : WorkOrder) (sub : Subscription)
    (ap : AccessPoint) (inst : Installation) (c : Csv)
    (hnc : wo.Status ≠ WorkOrderStatus.STATUS_CANCELLED)
    (hna : wo.Status ≠ WorkOrderStatus.STATUS_ABORTED)
    (hsub : w.subGetByID wo.ExternalSubscriptionReference = .ok sub)
    (hap : w.apGetById sub.AccesspointId = .ok ⟨some ap⟩)
    (hin : w.inGetByID wo.InstallationId = .ok ⟨some inst⟩)
    (h : (processWorkOrder w ctx wo).val = .ok c) :
    c.Status =
      (if inst.Status = InstallationStatus.STATUS_COMPLETED then Four
       else if inst.Modules.any isOntSent = true then Three
       else if wo.Status = WorkOrderStatus.STATUS_COMPLETED then Two
       else A1.One) ∧
    (lastOntSent inst.Modules = none → c.ONTSentAt = "-") ∧
    (∀ m, lastOntSent inst.Modules = some m →
      (formatAustrianTime w m.CompletedAt).val = .ok c.ONTSentAt) := by
  rw [processWorkOrder_val w ctx wo sub _ _ hsub hap hin] at h
  obtain ⟨ap', s1, s2, hap', -, -, hcase⟩ := buildRecord_ok w wo sub _ _ c h
  rcases hcase with ⟨hc, -⟩ | ⟨-, ha, -⟩ | ⟨-, -, inst', r, hi, hr, hcr⟩
  · exact absurd hc hnc
  · exact absurd ha hna
  · simp only [Option.some.injEq] at hi hap'
    subst hi hap'
    obtain ⟨h1, h2, h3, h4⟩ := scanModules_ok w _ _ _ _ hr
    subst hcr
    rw [settleStatus_status, settleStatus_ontSentAt]
    refine ⟨?_, h3, h4⟩
    rw [h2, h1]
    by_cases hs : inst.Status = InstallationStatus.STATUS_COMPLETED <;> simp [hs]

theorem processWorkOrder_total (w : World) (ctx : Ctx) (wo : WorkOrder) (sub : Subscription)
    (ap : AccessPoint) (inr : InstallationResponse) (loc : Location)
    (hsub : w.subGetByID wo.ExternalSubscriptionReference = .ok sub)
    (hap : w.apGetById sub.AccesspointId = .ok ⟨some ap⟩)
    (hin : w.inGetByID wo.InstallationId = .ok inr)
    (hinst : wo.Status = WorkOrderStatus.STATUS_CANCELLED ∨
      wo.Status = WorkOrderStatus.STATUS_ABORTED ∨ ∃ inst, inr.Installation = some inst)
    (hloc : w.loadLocation "Europe/Vienna" = .ok loc) :
    ∃ c, (processWorkOrder w ctx wo).val = .ok c := by
  rw [processWorkOrder_val w ctx wo sub _ _ hsub hap hin]
  exact buildRecord_total w loc hloc wo sub ap inr hinst

/-- C1: for a cancelled work order, whatever installation message was fetched (any status,
any modules, even none), every record the loop body builds has status "Cancelled" and
equipment-sent field "-"; and the body does build a record once the three fetches have
answered and the time zone loads. -/
theorem cancelled_record (w : World) (ctx : Ctx) (wo : WorkOrder) (sub : Subscription)
    (ap : AccessPoint) (inr : InstallationResponse)
    (hst : wo.Status = WorkOrderStatus.STATUS_CANCELLED)
    (hsub : w.subGetByID wo.ExternalSubscriptionReference = .ok sub)
    (hap : w.apGetById sub.AccesspointId = .ok ⟨some ap⟩)
    (hin : w.inGetByID wo.InstallationId = .ok inr) :
    (∀ c, (processWorkOrder w ctx wo).val = .ok c → c.Status = Cancelled ∧ c.ONTSentAt = "-") ∧
    (∀ loc, w.loadLocation "Europe/Vienna" = .ok loc →
      ∃ c, (processWorkOrder w ctx wo).val = .ok c) := by
  constructor
  · intro c h
    rw [processWorkOrder_val w ctx wo sub _ _ hsub hap hin] at h
    obtain ⟨ap', s1, s2, -, -, -, hcase⟩ := buildRecord_ok w wo sub _ _ c h
    rcases hcase with ⟨-, hc⟩ | ⟨hn, -⟩ | ⟨hn, -⟩
    · subst hc; exact ⟨rfl, rfl⟩
    · exact absurd hst hn
    · exact absurd hst hn
  · intro loc hloc
    exact processWorkOrder_total w ctx wo sub ap inr loc hsub hap hin (Or.inl hst) hloc

theorem cancelled_record_witness :
    woCancelled.Status = WorkOrderStatus.STATUS_CANCELLED ∧
    (processWorkOrder demoWorld demoCtx woCancelled).val =
      .ok ⟨"SP-s1", "NO-ap-s1", "Cancelled", "T1", "T9", "-"⟩ ∧
    ((∀ c, (processWorkOrder demoWorld demoCtx woCancelled).val = .ok c →
        c.Status = Cancelled ∧ c.ONTSentAt = "-") ∧
      (∀ loc, demoWorld.loadLocation "Europe/Vienna" = .ok loc →
        ∃ c, (processWorkOrder demoWorld demoCtx woCancelled).val = .ok c)) :=
  ⟨rfl, rfl, cancelled_record demoWorld demoCtx woCancelled (demoSub "s1")
    (demoAp (demoSub "s1").AccesspointId) ⟨some instDone⟩ rfl rfl rfl rfl⟩

/-- C2: for an aborted work order, whatever installation message was fetched, every record
the loop body builds has status "Aborted"; and the body does build a record once the three
fetches have answered and the time zone loads. -/
theorem aborted_record (w : World) (ctx : Ctx) (wo : WorkOrder) (sub : Subscription)
    (ap : AccessPoint) (inr : InstallationResponse)
    (hst : wo.Status = WorkOrderStatus.STATUS_ABORTED)
    (hsub : w.subGetByID wo.ExternalSubscriptionReference = .ok sub)
    (hap : w.apGetById sub.AccesspointId = .ok ⟨some ap⟩)
    (hin : w.inGetByID wo.InstallationId = .ok inr) :
    (∀ c, (processWorkOrder w ctx wo).val = .ok c → c.Status = Aborted) ∧
    (∀ loc, w.loadLocation "Europe/Vienna" = .ok loc →
      ∃ c, (processWorkOrder w ctx wo).val = .ok c) := by
  constructor
  · intro c h
    rw [processWorkOrder_val w ctx wo sub _ _ hsub hap hin] at h
    obtain ⟨ap', s1, s2, -, -, -, hcase⟩ := buildRecord_ok w wo sub _ _ c h
    rcases hcase with ⟨hc, -⟩ | ⟨-, -, hc⟩ | ⟨-, hn, -⟩
    · rw [hst] at hc; cases hc
    · subst hc; rfl
    · exact absurd hst hn
  · intro loc hloc
    exact processWorkOrder_total w ctx wo sub ap inr loc hsub hap hin (Or.inr (Or.inl hst)) hloc


theorem aborted_record_witness :
    woAborted.Status = WorkOrderStatus.STATUS_ABORTED ∧
    (processWorkOrder demoWorld demoCtx woAborted).val =
      .ok ⟨"SP-s2", "NO-ap-s2", "Aborted", "T1", "-", "-"⟩ ∧
    ((∀ c, (processWorkOrder demoWorld demoCtx woAborted).val = .ok c →
        c.Status = Aborted) ∧
      (∀ loc, demoWorld.loadLocation "Europe/Vienna" = .ok loc →
        ∃ c, (processWorkOrder demoWorld demoCtx woAborted).val = .ok c)) :=
  ⟨rfl, rfl, aborted_record demoWorld demoCtx woAborted (demoSub "s2")
    (demoAp (demoSub "s2").AccesspointId) ⟨some instSent⟩ rfl rfl rfl rfl⟩

/-- C3: for a work order that is neither cancelled nor aborted (completed or not) and whose
installation status is completed, every record the loop body builds has status
"Activated, ONT discovered", for every list of modules; and a record is built once the time
zone loads. -/
theorem installation_completed_record (w : World) (ctx : Ctx) (wo : WorkOrder)
    (sub : Subscription) (ap : AccessPoint) (inst : Installation)
    (hnc : wo.Status ≠ WorkOrderStatus.STATUS_CANCELLED)
    (hna : wo.Status ≠ WorkOrderStatus.STATUS_ABORTED)
    (hsub : w.subGetByID wo.ExternalSubscriptionReference = .ok sub)
    (hap : w.apGetById sub.AccesspointId = .ok ⟨some ap⟩)
    (hin : w.inGetByID wo.InstallationId = .ok ⟨some inst⟩)
    (hcomp : inst.Status = InstallationStatus.STATUS_COMPLETED) :
    (∀ c, (processWorkOrder w ctx wo).val = .ok c → c.Status = Four) ∧
    (∀ loc, w.loadLocation "Europe/Vienna" = .ok loc →
      ∃ c, (processWorkOrder w ctx wo).val = .ok c) := by
  constructor
  · intro c h
    have hs := (processWorkOrder_open w ctx wo sub ap inst c hnc hna hsub hap hin h).1
    rw [hs, if_pos hcomp]
  · intro loc hloc
    exact processWorkOrder_total w ctx wo sub ap _ loc hsub hap hin
      (Or.inr (Or.inr ⟨inst, rfl⟩)) hloc

theorem installation_completed_record_witness :
    woActivated.Status = WorkOrderStatus.STATUS_COMPLETED ∧
    instDone.Status = InstallationStatus.STATUS_COMPLETED ∧
    (processWorkOrder demoWorld demoCtx woActivated).val =
      .ok ⟨"SP-s3", "NO-ap-s3", "Activated, ONT discovered", "T1", "T11", "T7"⟩ ∧
    ((∀ c, (processWorkOrder demoWorld demoCtx woActivated).val = .ok c →
        c.Status = Four) ∧
      (∀ loc, demoWorld.loadLocation "Europe/Vienna" = .ok loc →
        ∃ c, (processWorkOrder demoWorld demoCtx woActivated).val = .ok c)) :=
  ⟨rfl, rfl, rfl, installation_completed_record demoWorld demoCtx woActivated (demoSub "s3")
    (demoAp (demoSub "s3").AccesspointId) instDone (by decide) (by decide) rfl rfl rfl rfl⟩

/-- C4: for a work order that is neither cancelled nor aborted (completed or not), whose
installation is not completed and has a module named "ONT sending" with its completion flag
set, every record the loop body builds has status "Finished by IKB, ONT Sent" and its
equipment-sent field is the result of `formatAustrianTime` on the completion instant of the
last such module in list order; and a record is built once the time zone loads. -/
theorem ont_sent_record (w : World) (ctx : Ctx) (wo : WorkOrder)
    (sub : Subscription) (ap : AccessPoint) (inst : Installation)
    (hnc : wo.Status ≠ WorkOrderStatus.STATUS_CANCELLED)
    (hna : wo.Status ≠ WorkOrderStatus.STATUS_ABORTED)
    (hsub : w.subGetByID wo.ExternalSubscriptionReference = .ok sub)
    (hap : w.apGetById sub.AccesspointId = .ok ⟨some ap⟩)
    (hin : w.inGetByID wo.InstallationId = .ok ⟨some inst⟩)
    (hcomp : inst.Status ≠ InstallationStatus.STATUS_COMPLETED)
    (hmod : ∃ m ∈ inst.Modules,
      m.Name = ModuleName.MODULE_NAME_ONT_SENDING ∧ m.Completed = true) :
    (∀ c, (processWorkOrder w ctx wo).val = .ok c →
      c.Status = Three ∧
      ∃ m, lastOntSent inst.Modules = some m ∧
        (formatAustrianTime w m.CompletedAt).val = .ok c.ONTSentAt) ∧
    (∀ loc, w.loadLocation "Europe/Vienna" = .ok loc →
      ∃ c, (processWorkOrder w ctx wo).val = .ok c) := by
  constructor
  · intro c h
    obtain ⟨hs, -, hsome⟩ := processWorkOrder_open w ctx wo sub ap inst c hnc hna hsub hap hin h
    obtain ⟨m, hm, hname, hdone⟩ := hmod
    have hany : inst.Modules.any isOntSent = true :=
      List.any_eq_true.mpr ⟨m, hm, by simp [isOntSent, hname, hdone]⟩
    constructor
    · rw [hs, if_neg hcomp, if_pos hany]
    · cases hl : lastOntSent inst.Modules with
      | none =>
        have := (lastOntSent_eq_none_iff _).mp hl m hm
        simp [isOntSent, hname, hdone] at this
      | some m' => exact ⟨m', rfl, hsome m' hl⟩
  · intro loc hloc
    exact processWorkOrder_total w ctx wo sub ap _ loc hsub hap hin
      (Or.inr (Or.inr ⟨inst, rfl⟩)) hloc

theorem ont_sent_record_witness :
    woSent.Status = WorkOrderStatus.STATUS_COMPLETED ∧
    instSent.Status ≠ InstallationStatus.STATUS_COMPLETED ∧
    lastOntSent instSent.Modules = some (ontModule 7) ∧
    (processWorkOrder demoWorld demoCtx woSent).val =
      .ok ⟨"SP-s4", "NO-ap-s4", "Finished by IKB, ONT Sent", "T1", "T12", "T7"⟩ ∧
    ((∀ c, (processWorkOrder demoWorld demoCtx woSent).val = .ok c →
        c.Status = Three ∧
        ∃ m, lastOntSent instSent.Modules = some m ∧
          (formatAustrianTime demoWorld m.CompletedAt).val = .ok c.ONTSentAt) ∧
      (∀ loc, demoWorld.loadLocation "Europe/Vienna" = .ok loc →
        ∃ c, (processWorkOrder demoWorld demoCtx woSent).val = .ok c)) :=
  ⟨rfl, by decide, rfl, rfl, ont_sent_record demoWorld demoCtx woSent (demoSub "s4")
    (demoAp (demoSub "s4").AccesspointId) instSent (by decide) (by decide) rfl rfl rfl
    (by decide) (by decide)⟩

/-- C5: for a completed work order whose installation is not completed and has no module
that is both named "ONT sending" and completed, every record the loop body builds has status
"Finished by IKB, ONT not sent" and equipment-sent field "-"; and a record is built once the
time zone loads. -/
theorem ont_not_sent_record (w : World) (ctx : Ctx) (wo : WorkOrder)
    (sub : Subscription) (ap : AccessPoint) (inst : Installation)
    (hst : wo.Status = WorkOrderStatus.STATUS_COMPLETED)
    (hsub : w.subGetByID wo.ExternalSubscriptionReference = .ok sub)
    (hap : w.apGetById sub.AccesspointId = .ok ⟨some ap⟩)
    (hin : w.inGetByID wo.InstallationId = .ok ⟨some inst⟩)
    (hcomp : inst.Status ≠ InstallationStatus.STATUS_COMPLETED)
    (hmod : ∀ m ∈ inst.Modules,
      ¬ (m.Name = ModuleName.MODULE_NAME_ONT_SENDING ∧ m.Completed = true)) :
    (∀ c, (processWorkOrder w ctx wo).val = .ok c → c.Status = Two ∧ c.ONTSentAt = "-") ∧
    (∀ loc, w.loadLocation "Europe/Vienna" = .ok loc →
      ∃ c, (processWorkOrder w ctx wo).val = .ok c) := by
  have hnone : ∀ m ∈ inst.Modules, isOntSent m = false := by
    intro m hm
    have := hmod m hm
    by_cases hn : m.Name = ModuleName.MODULE_NAME_ONT_SENDING
    · simp [isOntSent, hn]; simpa [hn] using this
    · simp [isOntSent, hn]
  constructor
  · intro c h
    obtain ⟨hs, hdash, -⟩ := processWorkOrder_open w ctx wo sub ap inst c
      (by rw [hst]; decide) (by rw [hst]; decide) hsub hap hin h
    have hany : ¬ inst.Modules.any isOntSent = true := by
      rw [List.any_eq_true]
      rintro ⟨m, hm, hp⟩
      rw [hnone m hm] at hp
      cases hp
    exact ⟨by rw [hs, if_neg hcomp, if_neg hany, if_pos hst],
      hdash ((lastOntSent_eq_none_iff _).mpr hnone)⟩
  · intro loc hloc
    exact processWorkOrder_total w ctx wo sub ap _ loc hsub hap hin
      (Or.inr (Or.inr ⟨inst, rfl⟩)) hloc

theorem ont_not_sent_record_witness :
    woNotSent.Status = WorkOrderStatus.STATUS_COMPLETED ∧
    instOpen.Status ≠ InstallationStatus.STATUS_COMPLETED ∧
    (processWorkOrder demoWorld demoCtx woNotSent).val =
      .ok ⟨"SP-s5", "NO-ap-s5", "Finished by IKB, ONT not sent", "T1", "T13", "-"⟩ ∧
    ((∀ c, (processWorkOrder demoWorld demoCtx woNotSent).val = .ok c →
        c.Status = Two ∧ c.ONTSentAt = "-") ∧
      (∀ loc, demoWorld.loadLocation "Europe/Vienna" = .ok loc →
        ∃ c, (processWorkOrder demoWorld demoCtx woNotSent).val = .ok c)) :=
  ⟨rfl, by decide, rfl, ont_not_sent_record demoWorld demoCtx woNotSent (demoSub "s5")
    (demoAp (demoSub "s5").AccesspointId) instOpen rfl rfl rfl rfl (by decide) (by decide)⟩

/-- C6: for a work order that is none of cancelled, aborted, completed, whose installation
is not completed and has no module that is both named "ONT sending" and completed, every
record the loop body builds has status "Provided to IKB"; and a record is built once the time
zone loads. -/
theorem provided_record (w : World) (ctx : Ctx) (wo : WorkOrder)
    (sub : Subscription) (ap : AccessPoint) (inst : Installation)
    (hnc : wo.Status ≠ WorkOrderStatus.STATUS_CANCELLED)
    (hna : wo.Status ≠ WorkOrderStatus.STATUS_ABORTED)
    (hnd : wo.Status ≠ WorkOrderStatus.STATUS_COMPLETED)
    (hsub : w.subGetByID wo.ExternalSubscriptionReference = .ok sub)
    (hap : w.apGetById sub.AccesspointId = .ok ⟨some ap⟩)
    (hin : w.inGetByID wo.InstallationId = .ok ⟨some inst⟩)
    (hcomp : inst.Status ≠ InstallationStatus.STATUS_COMPLETED)
    (hmod : ∀ m ∈ inst.Modules,
      ¬ (m.Name = ModuleName.MODULE_NAME_ONT_SENDING ∧ m.Completed = true)) :
    (∀ c, (processWorkOrder w ctx wo).val = .ok c → c.Status = A1.One) ∧
    (∀ loc, w.loadLocation "Europe/Vienna" = .ok loc →
      ∃ c, (processWorkOrder w ctx wo).val = .ok c) := by
  constructor
  · intro c h
    obtain ⟨hs, -, -⟩ := processWorkOrder_open w ctx wo sub ap inst c hnc hna hsub hap hin h
    have hany : ¬ inst.Modules.any isOntSent = true := by
      rw [List.any_eq_true]
      rintro ⟨m, hm, hp⟩
      apply hmod m hm
      simpa [isOntSent] using hp
    rw [hs, if_neg hcomp, if_neg hany, if_neg hnd]
  · intro loc hloc
    exact processWorkOrder_total w ctx wo sub ap _ loc hsub hap hin
      (Or.inr (Or.inr ⟨inst, rfl⟩)) hloc

theorem provided_record_witness :
    woProvided.Status = WorkOrderStatus.STATUS_ACTIVE ∧
    instOpen.Status ≠ InstallationStatus.STATUS_COMPLETED ∧
    (processWorkOrder demoWorld demoCtx woProvided).val =
      .ok ⟨"SP-s6", "NO-ap-s6", "Provided to IKB", "T1", "-", "-"⟩ ∧
    ((∀ c, (processWorkOrder demoWorld demoCtx woProvided).val = .ok c →
        c.Status = A1.One) ∧
      (∀ loc, demoWorld.loadLocation "Europe/Vienna" = .ok loc →
        ∃ c, (processWorkOrder demoWorld demoCtx woProvided).val = .ok c)) :=
  ⟨rfl, by decide, rfl, provided_record demoWorld demoCtx woProvided (demoSub "s6")
    (demoAp (demoSub "s6").AccesspointId) instOpen (by decide) (by decide) (by decide)
    rfl rfl rfl (by decide) (by decide)⟩

/-- C7: for a work order that is neither cancelled nor aborted and for every installation
status, the equipment-sent field of every record the loop body builds is the result of
`formatAustrianTime` on the completion instant of the last module, in list order, named
"ONT sending" with its completion flag set, and is "-" when there is no such module; with a
completed installation the status is still "Activated, ONT discovered". A record is built
once the time zone loads. -/
theorem ont_sent_at_captured (w : World) (ctx : Ctx) (wo : WorkOrder)
    (sub : Subscription) (ap : AccessPoint) (inst : Installation)
    (hnc : wo.Status ≠ WorkOrderStatus.STATUS_CANCELLED)
    (hna : wo.Status ≠ WorkOrderStatus.STATUS_ABORTED)
    (hsub : w.subGetByID wo.ExternalSubscriptionReference = .ok sub)
    (hap : w.apGetById sub.AccesspointId = .ok ⟨some ap⟩)
    (hin : w.inGetByID wo.InstallationId = .ok ⟨some inst⟩) :
    (∀ c, (processWorkOrder w ctx wo).val = .ok c →
      (∀ m, lastOntSent inst.Modules = some m →
        (formatAustrianTime w m.CompletedAt).val = .ok c.ONTSentAt) ∧
      ((∀ m ∈ inst.Modules,
          ¬ (m.Name = ModuleName.MODULE_NAME_ONT_SENDING ∧ m.Completed = true)) →
        c.ONTSentAt = "-") ∧
      (inst.Status = InstallationStatus.STATUS_COMPLETED → c.Status = Four)) ∧
    (∀ loc, w.loadLocation "Europe/Vienna" = .ok loc →
      ∃ c, (processWorkOrder w ctx wo).val = .ok c) := by
  constructor
  · intro c h
    obtain ⟨hs, hdash, hsome⟩ :=
      processWorkOrder_open w ctx wo sub ap inst c hnc hna hsub hap hin h
    refine ⟨hsome, ?_, ?_⟩
    · intro hmod
      apply hdash
      rw [lastOntSent_eq_none_iff]
      intro m hm
      have := hmod m hm
      by_cases hn : m.Name = ModuleName.MODULE_NAME_ONT_SENDING
      · simp [isOntSent, hn]; simpa [hn] using this
      · simp [isOntSent, hn]
    · intro hcomp
      rw [hs, if_pos hcomp]
  · intro loc hloc
    exact processWorkOrder_total w ctx wo sub ap _ loc hsub hap hin
      (Or.inr (Or.inr ⟨inst, rfl⟩)) hloc


theorem ont_sent_at_captured_witness :
    woDiscovered.Status = WorkOrderStatus.STATUS_ACTIVE ∧
    lastOntSent instDone.Modules = some (ontModule 7) ∧
    (processWorkOrder demoWorld demoCtx woDiscovered).val =
      .ok ⟨"SP-s7", "NO-ap-s7", "Activated, ONT discovered", "T1", "-", "T7"⟩ ∧
    ((∀ c, (processWorkOrder demoWorld demoCtx woDiscovered).val = .ok c →
        (∀ m, lastOntSent instDone.Modules = some m →
          (formatAustrianTime demoWorld m.CompletedAt).val = .ok c.ONTSentAt) ∧
        ((∀ m ∈ instDone.Modules,
            ¬ (m.Name = ModuleName.MODULE_NAME_ONT_SENDING ∧ m.Completed = true)) →
          c.ONTSentAt = "-") ∧
        (instDone.Status = InstallationStatus.STATUS_COMPLETED → c.Status = Four)) ∧
      (∀ loc, demoWorld.loadLocation "Europe/Vienna" = .ok loc →
        ∃ c, (processWorkOrder demoWorld demoCtx woDiscovered).val = .ok c)) :=
  ⟨rfl, rfl, rfl, ont_sent_at_captured demoWorld demoCtx woDiscovered (demoSub "s7")
    (demoAp (demoSub "s7").AccesspointId) instDone (by decide) (by decide) rfl rfl rfl⟩

theorem traceAll_pure {α : Type} (P : Event → Prop) (a : α) : TraceAll P (pure a : Run α) :=
  ⟨by intro e he; simp at he⟩

theorem traceAll_goPanic {α : Type} (P : Event → Prop) (msg : String) :
    TraceAll P (goPanic msg : Run α) :=
  ⟨by intro e he; simp at he⟩

theorem traceAll_emit (P : Event → Prop) (ev : Event) (h : P ev) : TraceAll P (emit ev) :=
  ⟨by intro e he; simp at he; subst he; exact h⟩

theorem traceAll_setCells (P : Event → Prop) (cells : List CellWrite)
    (h : ∀ c, P (.setCell c)) : TraceAll P (setCells cells) :=
  ⟨by
    intro e he
    obtain ⟨c, -, rfl⟩ := List.mem_map.mp he
    exact h c⟩

theorem traceAll_must {α : Type} (P : Event → Prop) (r : Except String α) :
    TraceAll P (must r) := by
  cases r with
  | error e => exact traceAll_goPanic P e
  | ok a => exact traceAll_pure P a

theorem traceAll_bind {α β : Type} (P : Event → Prop) (m : Run α) (f : α → Run β)
    (hm : TraceAll P m) (hf : ∀ a, m.val = .ok a → TraceAll P (f a)) :
    TraceAll P (m >>= f) := by
  constructor
  intro e he
  rw [Run.trace_bind] at he
  cases hv : m.val with
  | error err =>
    rw [hv] at he
    exact hm.all e he
  | ok a =>
    rw [hv] at he
    rcases List.mem_append.mp he with h | h
    · exact hm.all e h
    · exact (hf a hv).all e h

theorem traceAll_of_trace_nil {α : Type} (P : Event → Prop) (m : Run α) (h : m.trace = []) :
    TraceAll P m :=
  ⟨by intro e he; rw [h] at he; cases he⟩

theorem buildRecord_traceAll (P : Event → Prop) (hlog : ∀ msg id, P (.log msg id))
    (w : World) (wo : WorkOrder) (sub : Subscription) (apr : AccessPointResponse)
    (inr : InstallationResponse) : TraceAll P (buildRecord w wo sub apr inr) := by
  unfold buildRecord
  split
  · exact traceAll_goPanic P _
  · refine traceAll_bind P _ _ (traceAll_of_trace_nil P _ (formatAustrianTime_trace _ _)) ?_
    intro s1 _
    refine traceAll_bind P _ _ (traceAll_of_trace_nil P _ (formatAustrianTime_trace _ _)) ?_
    intro s2 _
    split
    · exact traceAll_bind P _ _ (traceAll_emit P _ (hlog _ _)) (fun _ _ => traceAll_pure P _)
    · split
      · exact traceAll_bind P _ _ (traceAll_emit P _ (hlog _ _)) (fun _ _ => traceAll_pure P _)
      · split
        · exact traceAll_goPanic P _
        · refine traceAll_bind P _ _ (traceAll_of_trace_nil P _ (scanModules_trace _ _ _ _)) ?_
          intro r _
          exact traceAll_pure P _

theorem processWorkOrder_traceAll (P : Event → Prop) (ctx : Ctx)
    (hlog : ∀ msg id, P (.log msg id)) (hrpc : ∀ m a, P (.rpc ctx m a))
    (w : World) (wo : WorkOrder) : TraceAll P (processWorkOrder w ctx wo) := by
  unfold processWorkOrder
  refine traceAll_bind P _ _ (traceAll_emit P _ (hlog _ _)) (fun _ _ => ?_)
  refine traceAll_bind P _ _ (traceAll_emit P _ (hrpc _ _)) (fun _ _ => ?_)
  split
  · exact traceAll_goPanic P _
  · refine traceAll_bind P _ _ (traceAll_emit P _ (hrpc _ _)) (fun _ _ => ?_)
    split
    · exact traceAll_goPanic P _
    · refine traceAll_bind P _ _ (traceAll_emit P _ (hrpc _ _)) (fun _ _ => ?_)
      split
      · exact traceAll_goPanic P _
      · exact buildRecord_traceAll P hlog _ _ _ _ _

theorem aggregate_traceAll (P : Event → Prop) (ctx : Ctx)
    (hlog : ∀ msg id, P (.log msg id)) (hrpc : ∀ m a, P (.rpc ctx m a)) (w : World) :
    ∀ (wos : List WorkOrder) (csvs : List Csv), TraceAll P (aggregate w ctx wos csvs) := by
  intro wos
  induction wos with
  | nil => intro csvs; exact traceAll_pure P _
  | cons wo rest ih =>
    intro csvs
    unfold aggregate
    exact traceAll_bind P _ _ (processWorkOrder_traceAll P ctx hlog hrpc w wo) (fun _ _ => ih _)

theorem aggregate_ok (w : World) (ctx : Ctx) :
    ∀ (wos : List WorkOrder) (csvs out : List Csv),
      (aggregate w ctx wos csvs).val = .ok out →
      ∃ recs, out = csvs ++ recs ∧
        List.Forall₂ (fun wo c => (processWorkOrder w ctx wo).val = .ok c) wos recs := by
  intro wos
  induction wos with
  | nil =>
    intro csvs out h
    simp [aggregate] at h
    exact ⟨[], by simp [h], List.Forall₂.nil⟩
  | cons wo rest ih =>
    intro csvs out h
    unfold aggregate at h
    rw [Run.val_bind] at h
    cases hc : (processWorkOrder w ctx wo).val with
    | error e => simp [hc] at h
    | ok c =>
      simp only [hc] at h
      obtain ⟨recs, hout, hall⟩ := ih _ _ h
      exact ⟨c :: recs, by simp [hout], List.Forall₂.cons hc hall⟩

theorem aggregate_total (w : World) (ctx : Ctx) :
    ∀ (wos : List WorkOrder) (csvs : List Csv),
      (∀ wo ∈ wos, ∃ c, (processWorkOrder w ctx wo).val = .ok c) →
      ∃ out, (aggregate w ctx wos csvs).val = .ok out := by
  intro wos
  induction wos with
  | nil => intro csvs _; exact ⟨csvs, rfl⟩
  | cons wo rest ih =>
    intro csvs h
    obtain ⟨c, hc⟩ := h wo (List.mem_cons_self _ _)
    unfold aggregate
    rw [Run.val_bind, hc]
    exact ih _ (fun wo' hwo' => h wo' (List.mem_cons_of_mem _ hwo'))

theorem aggregate_error (w : World) (ctx : Ctx) :
    ∀ (wos : List WorkOrder) (csvs : List Csv) (wo : WorkOrder), wo ∈ wos →
      (∃ e, (processWorkOrder w ctx wo).val = .error e) →
      ∃ e, (aggregate w ctx wos csvs).val = .error e := by
  intro wos
  induction wos with
  | nil => intro csvs wo hmem; cases hmem
  | cons wo' rest ih =>
    intro csvs wo hmem hfail
    unfold aggregate
    rw [Run.val_bind]
    cases hc : (processWorkOrder w ctx wo').val with
    | error e => exact ⟨e, rfl⟩
    | ok c =>
      rcases List.mem_cons.mp hmem with h | h
      · subst h
        obtain ⟨e, he⟩ := hfail
        rw [he] at hc
        cases hc
      · exact ih _ wo h hfail

theorem processWorkOrder_error_of_fetchFails (w : World) (ctx : Ctx) (wo : WorkOrder)
    (h : fetchFails w wo = true) : ∃ e, (processWorkOrder w ctx wo).val = .error e := by
  unfold fetchFails at h
  unfold processWorkOrder
  simp only [Run.val_bind, val_emit]
  cases hs : w.subGetByID wo.ExternalSubscriptionReference with
  | error e => exact ⟨_, rfl⟩
  | ok sub =>
    simp only [hs] at h ⊢
    cases ha : w.apGetById sub.AccesspointId with
    | error e => exact ⟨_, rfl⟩
    | ok apr =>
      simp only [ha] at h ⊢
      cases hi : w.inGetByID wo.InstallationId with
      | error e => exact ⟨_, rfl⟩
      | ok inr => simp [hi] at h

theorem writeRows_eq :
    ∀ (csvs : List Csv) (i : Nat) (cells : List CellWrite),
      writeRows i csvs cells =
        cells ++ ((csvs.enumFrom i).map (fun p => rowCells (p.1 + 2) p.2)).flatten := by
  intro csvs
  induction csvs with
  | nil => intro i cells; simp [writeRows]
  | cons csv rest ih =>
    intro i cells
    simp [writeRows, ih, List.append_assoc]


theorem failsQuietly_goPanic {α : Type} (msg : String) : FailsQuietly (goPanic msg : Run α) :=
  ⟨⟨msg, rfl⟩, traceAll_goPanic _ msg⟩

theorem failsQuietly_bind_left {α β : Type} (m : Run α) (f : α → Run β)
    (h : FailsQuietly m) : FailsQuietly (m >>= f) := by
  obtain ⟨e, he⟩ := h.err
  refine ⟨⟨e, by rw [Run.val_bind, he]⟩, traceAll_bind _ m f h.quiet ?_⟩
  intro a ha
  rw [he] at ha
  cases ha

theorem failsQuietly_bind_right {α β : Type} (m : Run α) (f : α → Run β)
    (hm : TraceAll (fun e => e.isOutput = false) m)
    (hf : ∀ a, m.val = .ok a → FailsQuietly (f a)) : FailsQuietly (m >>= f) := by
  constructor
  · rw [Run.val_bind]
    cases hv : m.val with
    | error e => exact ⟨e, rfl⟩
    | ok a => exact (hf a hv).err
  · exact traceAll_bind _ m f hm (fun a ha => (hf a ha).quiet)

theorem must_val {α : Type} (r : Except String α) : (must r).val = r := by
  cases r <;> rfl

theorem aggregate_failsQuietly (w : World) (ctx : Ctx) (wos : List WorkOrder) (csvs : List Csv)
    (wo : WorkOrder) (hmem : wo ∈ wos) (hfail : fetchFails w wo = true) :
    FailsQuietly (aggregate w ctx wos csvs) :=
  ⟨aggregate_error w ctx wos csvs wo hmem (processWorkOrder_error_of_fetchFails w ctx wo hfail),
    aggregate_traceAll (fun e => e.isOutput = false) ctx (fun _ _ => rfl) (fun _ _ => rfl)
      w wos csvs⟩

theorem main_eq (w : World) :
    A1.main w = if resolvedToken w = "" then goPanic "vault token is not set"
      else runReport w ⟨resolvedToken w, resolvedActor w⟩ := rfl

theorem kelag_main_eq (w : World) :
    Kelag.main w = if resolvedToken w = "" then goPanic "vault token is not set"
      else Kelag.runWalk w ⟨resolvedToken w, resolvedActor w⟩ := rfl

theorem runReport_failsQuietly (w : World) (ctx : Ctx) (wos : List WorkOrder) (wo : WorkOrder)
    (hwos : w.woGet = .ok wos) (hmem : wo ∈ wos) (hfail : fetchFails w wo = true) :
    FailsQuietly (runReport w ctx) := by
  unfold runReport
  refine failsQuietly_bind_right _ _ (traceAll_emit _ _ rfl) (fun _ _ => ?_)
  refine failsQuietly_bind_right _ _ (traceAll_must _ _) (fun _ _ => ?_)
  refine failsQuietly_bind_right _ _ (traceAll_emit _ _ rfl) (fun _ _ => ?_)
  refine failsQuietly_bind_right _ _ (traceAll_must _ _) (fun wos' hv => ?_)
  rw [must_val, hwos] at hv
  cases hv
  refine failsQuietly_bind_right _ _ (traceAll_emit _ _ rfl) (fun _ _ => ?_)
  refine failsQuietly_bind_right _ _ (traceAll_must _ _) (fun _ _ => ?_)
  refine failsQuietly_bind_right _ _ (traceAll_emit _ _ rfl) (fun _ _ => ?_)
  refine failsQuietly_bind_right _ _ (traceAll_must _ _) (fun _ _ => ?_)
  exact failsQuietly_bind_left _ _ (aggregate_failsQuietly w _ wos [] wo hmem hfail)

theorem main_failsQuietly (w : World) (wos : List WorkOrder) (wo : WorkOrder)
    (hwos : w.woGet = .ok wos) (hmem : wo ∈ wos) (hfail : fetchFails w wo = true) :
    FailsQuietly (A1.main w) := by
  rw [main_eq]
  split
  · exact failsQuietly_goPanic _
  · exact runReport_failsQuietly w _ wos wo hwos hmem hfail

theorem writeReport_traceAll (P : Event → Prop) (hcreate : ∀ p, P (.createFile p))
    (hcell : ∀ c, P (.setCell c)) (hsave : ∀ p cells, P (.saveFile p cells)) (hout : ∀ l, P (.stdout l))
    (w : World) (csvs : List Csv) : TraceAll P (writeReport w csvs) := by
  unfold writeReport
  refine traceAll_bind P _ _ (traceAll_must P _) (fun _ _ => ?_)
  refine traceAll_bind P _ _ (traceAll_emit P _ (hcreate _)) (fun _ _ => ?_)
  refine traceAll_bind P _ _ (traceAll_must P _) (fun _ _ => ?_)
  dsimp only
  refine traceAll_bind P _ _ (traceAll_setCells P _ hcell) (fun _ _ => ?_)
  split
  · exact traceAll_goPanic P _
  · refine traceAll_bind P _ _ (traceAll_emit P _ (hsave _ _)) (fun _ _ => ?_)
    refine traceAll_bind P _ _ (traceAll_emit P _ (hout _)) (fun _ _ => ?_)
    refine traceAll_bind P _ _ (traceAll_emit P _ (hout _)) (fun _ _ => ?_)
    exact traceAll_emit P _ (hout _)

theorem runReport_traceAll (P : Event → Prop) (w : World) (ctx : Ctx)
    (hdial : ∀ t, P (.dial t)) (hlog : ∀ msg id, P (.log msg id))
    (hrpc : ∀ m a, P (.rpc ctx m a))
    (hcreate : ∀ p, P (.createFile p)) (hcell : ∀ c, P (.setCell c))
    (hsave : ∀ p cells, P (.saveFile p cells))
    (hout : ∀ l, P (.stdout l)) : TraceAll P (runReport w ctx) := by
  unfold runReport
  refine traceAll_bind P _ _ (traceAll_emit P _ (hdial _)) (fun _ _ => ?_)
  refine traceAll_bind P _ _ (traceAll_must P _) (fun _ _ => ?_)
  refine traceAll_bind P _ _ (traceAll_emit P _ (hrpc _ _)) (fun _ _ => ?_)
  refine traceAll_bind P _ _ (traceAll_must P _) (fun wos _ => ?_)
  refine traceAll_bind P _ _ (traceAll_emit P _ (hdial _)) (fun _ _ => ?_)
  refine traceAll_bind P _ _ (traceAll_must P _) (fun _ _ => ?_)
  refine traceAll_bind P _ _ (traceAll_emit P _ (hdial _)) (fun _ _ => ?_)
  refine traceAll_bind P _ _ (traceAll_must P _) (fun _ _ => ?_)
  refine traceAll_bind P _ _ (aggregate_traceAll P _ hlog hrpc w wos []) (fun _ _ => ?_)
  exact writeReport_traceAll P hcreate hcell hsave hout w _

theorem main_traceAll (P : Event → Prop) (w : World)
    (hdial : ∀ t, P (.dial t)) (hlog : ∀ msg id, P (.log msg id))
    (hrpc : ∀ m a, P (.rpc ⟨resolvedToken w, resolvedActor w⟩ m a))
    (hcreate : ∀ p, P (.createFile p)) (hcell : ∀ c, P (.setCell c))
    (hsave : ∀ p cells, P (.saveFile p cells))
    (hout : ∀ l, P (.stdout l)) : TraceAll P (A1.main w) := by
  rw [main_eq]
  split
  · exact traceAll_goPanic P _
  · exact runReport_traceAll P w _ hdial hlog hrpc hcreate hcell hsave hout

theorem walkPops_traceAll (P : Event → Prop) (ctx : Ctx) (hrpc : ∀ m a, P (.rpc ctx m a))
    (w : World) : ∀ pops : List Pop, TraceAll P (Kelag.walkPops w ctx pops) := by
  intro pops
  induction pops with
  | nil => exact traceAll_pure P _
  | cons pop rest ih =>
    unfold Kelag.walkPops
    refine traceAll_bind P _ _ (traceAll_emit P _ (hrpc _ _)) (fun _ _ => ?_)
    exact traceAll_bind P _ _ (traceAll_must P _) (fun _ _ => ih)

theorem kelag_main_traceAll (P : Event → Prop) (w : World)
    (hdial : ∀ t, P (.dial t))
    (hrpc : ∀ m a, P (.rpc ⟨resolvedToken w, resolvedActor w⟩ m a)) :
    TraceAll P (Kelag.main w) := by
  rw [kelag_main_eq]
  split
  · exact traceAll_goPanic P _
  · unfold Kelag.runWalk
    refine traceAll_bind P _ _ (traceAll_emit P _ (hdial _)) (fun _ _ => ?_)
    refine traceAll_bind P _ _ (traceAll_must P _) (fun _ _ => ?_)
    refine traceAll_bind P _ _ (traceAll_emit P _ (hrpc _ _)) (fun _ _ => ?_)
    refine traceAll_bind P _ _ (traceAll_must P _) (fun pops _ => ?_)
    exact walkPops_traceAll P _ hrpc w pops

theorem main_no_token (w : World) (h1 : w.viperGetString "vault-token" = "")
    (h2 : w.osGetenv "VAULT_TOKEN" = "") :
    A1.main w = ⟨[], .error "vault token is not set"⟩ ∧
    Kelag.main w = ⟨[], .error "vault token is not set"⟩ := by
  have ht : resolvedToken w = "" := by simp [resolvedToken, h1, h2]
  rw [main_eq, if_pos ht, kelag_main_eq, if_pos ht]
  exact ⟨rfl, rfl⟩


theorem fetchesSucceed_spec (w : World) (wo : WorkOrder) (h : fetchesSucceed w wo = true) :
    ∃ sub ap inr, w.subGetByID wo.ExternalSubscriptionReference = .ok sub ∧
      w.apGetById sub.AccesspointId = .ok ⟨some ap⟩ ∧
      w.inGetByID wo.InstallationId = .ok inr ∧
      (wo.Status = WorkOrderStatus.STATUS_CANCELLED ∨
        wo.Status = WorkOrderStatus.STATUS_ABORTED ∨ ∃ inst, inr.Installation = some inst) := by
  unfold fetchesSucceed at h
  cases hs : w.subGetByID wo.ExternalSubscriptionReference with
  | error e => simp [hs] at h
  | ok sub =>
    simp only [hs] at h
    cases ha : w.apGetById sub.AccesspointId with
    | error e => simp [ha] at h
    | ok apr =>
      obtain ⟨_ | ap⟩ := apr
      · simp [ha] at h
      · simp only [ha] at h
        cases hi : w.inGetByID wo.InstallationId with
        | error e => simp [hi] at h
        | ok inr =>
          simp only [hi, Bool.or_eq_true, decide_eq_true_eq, Option.isSome_iff_exists] at h
          refine ⟨sub, ap, inr, rfl, ha, rfl, ?_⟩
          rcases h with (h | h) | h
          · exact Or.inl h
          · exact Or.inr (Or.inl h)
          · exact Or.inr (Or.inr h)

theorem writeReport_trace (w : World) (csvs : List Csv) (idx : Int)
    (h1 : w.osCreate "output.xlsx" = .ok ()) (h2 : w.newSheet sheetName = .ok idx) :
    ∃ rest, (writeReport w csvs).trace =
      Event.createFile "output.xlsx" ::
        (writeRows 0 csvs headerCells).map Event.setCell ++ rest := by
  cases h3 : w.saveAs "output.xlsx" with
  | error e => exact ⟨[], by simp [writeReport, must, setCells, h1, h2, h3]⟩
  | ok u =>
    exact ⟨[ .saveFile "output.xlsx" (writeRows 0 csvs headerCells),
        .stdout "Excel file created successfully: output.xlsx",
        .stdout "You can open it with Excel or any compatible spreadsheet software.",
        .stdout "Done." ], by simp [writeReport, must, setCells, h1, h2, h3]⟩

/-- C8 (amended): when, for every work order of the list, the three fetches succeed and
carry the messages the loop body reads (the access point; the installation unless the work
order is cancelled or aborted), and the Europe/Vienna time zone loads, the aggregation loop
ends normally with exactly one record per work order, the i-th record being the one the loop
body builds for the i-th work order (cancelled and aborted ones included); once `os.Create`
and `NewSheet` have succeeded, the emitter writes the six header cells A1 to F1 of sheet
"Work Orders" and then, for record i, its six fields to the cells A to F of row i+2. -/
theorem aggregate_one_record_per_work_order (w : World) (ctx : Ctx) (wos : List WorkOrder)
    (loc : Location) (hloc : w.loadLocation "Europe/Vienna" = .ok loc)
    (hfetch : ∀ wo ∈ wos, fetchesSucceed w wo = true) :
    ∃ csvs, (aggregate w ctx wos []).val = .ok csvs ∧ csvs.length = wos.length ∧
      (∀ i (h1 : i < wos.length) (h2 : i < csvs.length),
        (processWorkOrder w ctx wos[i]).val = .ok csvs[i]) ∧
      (∀ idx, w.osCreate "output.xlsx" = .ok () → w.newSheet "Work Orders" = .ok idx →
        ∃ rest, (writeReport w csvs).trace =
          Event.createFile "output.xlsx" ::
            ((([ ⟨"Work Orders", "A1", "Service Provider Reference"⟩,
                 ⟨"Work Orders", "B1", "Network Owner Reference"⟩,
                 ⟨"Work Orders", "C1", "Status"⟩,
                 ⟨"Work Orders", "D1", "Subscription Created At"⟩,
                 ⟨"Work Orders", "E1", "Work Order Completed At"⟩,
                 ⟨"Work Orders", "F1", "ONT Sent At"⟩ ] : List CellWrite) ++
              (csvs.enum.map (fun p =>
                ([ ⟨"Work Orders", "A" ++ toString (p.1 + 2), p.2.ServiceProviderReference⟩,
                   ⟨"Work Orders", "B" ++ toString (p.1 + 2), p.2.NetworkOwnerReference⟩,
                   ⟨"Work Orders", "C" ++ toString (p.1 + 2), p.2.Status⟩,
                   ⟨"Work Orders", "D" ++ toString (p.1 + 2), p.2.SubscriptionCreatedAt⟩,
                   ⟨"Work Orders", "E" ++ toString (p.1 + 2), p.2.WorkOrderCompletedAt⟩,
                   ⟨"Work Orders", "F" ++ toString (p.1 + 2), p.2.ONTSentAt⟩ ] :
                  List CellWrite))).flatten).map Event.setCell) ++ rest) := by
  have htot : ∀ wo ∈ wos, ∃ c, (processWorkOrder w ctx wo).val = .ok c := by
    intro wo hwo
    obtain ⟨sub, ap, inr, hs, ha, hi, hinst⟩ := fetchesSucceed_spec w wo (hfetch wo hwo)
    exact processWorkOrder_total w ctx wo sub ap inr loc hs ha hi hinst hloc
  obtain ⟨csvs, hc⟩ := aggregate_total w ctx wos [] htot
  obtain ⟨recs, hout, hall⟩ := aggregate_ok w ctx wos [] csvs hc
  rw [List.nil_append] at hout
  subst hout
  have hget := List.forall₂_iff_get.mp hall
  refine ⟨csvs, hc, hget.1.symm, ?_, ?_⟩
  · intro i h1 h2
    have := hget.2 i h1 h2
    simpa using this
  · intro idx h1 h2
    obtain ⟨rest, hrest⟩ := writeReport_trace w csvs idx h1 h2
    refine ⟨rest, ?_⟩
    rw [hrest, writeRows_eq csvs 0 headerCells]
    rfl

theorem aggregate_one_record_witness :
    demoWorld.loadLocation "Europe/Vienna" = .ok ⟨"Europe/Vienna"⟩ ∧
    (∀ wo ∈ demoWorkOrders, fetchesSucceed demoWorld wo = true) ∧
    (aggregate demoWorld demoCtx demoWorkOrders []).val =
      .ok [ ⟨"SP-s1", "NO-ap-s1", "Cancelled", "T1", "T9", "-"⟩,
            ⟨"SP-s2", "NO-ap-s2", "Aborted", "T1", "-", "-"⟩,
            ⟨"SP-s3", "NO-ap-s3", "Activated, ONT discovered", "T1", "T11", "T7"⟩,
            ⟨"SP-s4", "NO-ap-s4", "Finished by IKB, ONT Sent", "T1", "T12", "T7"⟩,
            ⟨"SP-s5", "NO-ap-s5", "Finished by IKB, ONT not sent", "T1", "T13", "-"⟩,
            ⟨"SP-s6", "NO-ap-s6", "Provided to IKB", "T1", "-", "-"⟩,
            ⟨"SP-s9", "NO-ap-s9", "Cancelled", "T1", "-", "-"⟩ ] ∧
    ((A1.main demoWorld).trace.drop 35).take 19 =
      [ .createFile "output.xlsx",
        .setCell ⟨"Work Orders", "A1", "Service Provider Reference"⟩,
        .setCell ⟨"Work Orders", "B1", "Network Owner Reference"⟩,
        .setCell ⟨"Work Orders", "C1", "Status"⟩,
        .setCell ⟨"Work Orders", "D1", "Subscription Created At"⟩,
        .setCell ⟨"Work Orders", "E1", "Work Order Completed At"⟩,
        .setCell ⟨"Work Orders", "F1", "ONT Sent At"⟩,
        .setCell ⟨"Work Orders", "A2", "SP-s1"⟩,
        .setCell ⟨"Work Orders", "B2", "NO-ap-s1"⟩,
        .setCell ⟨"Work Orders", "C2", "Cancelled"⟩,
        .setCell ⟨"Work Orders", "D2", "T1"⟩,
        .setCell ⟨"Work Orders", "E2", "T9"⟩,
        .setCell ⟨"Work Orders", "F2", "-"⟩,
        .setCell ⟨"Work Orders", "A3", "SP-s2"⟩,
        .setCell ⟨"Work Orders", "B3", "NO-ap-s2"⟩,
        .setCell ⟨"Work Orders", "C3", "Aborted"⟩,
        .setCell ⟨"Work Orders", "D3", "T1"⟩,
        .setCell ⟨"Work Orders", "E3", "-"⟩,
        .setCell ⟨"Work Orders", "F3", "-"⟩ ] ∧
    ∃ csvs, (aggregate demoWorld demoCtx demoWorkOrders []).val = .ok csvs ∧
      csvs.length = demoWorkOrders.length ∧
      (∀ i (h1 : i < demoWorkOrders.length) (h2 : i < csvs.length),
        (processWorkOrder demoWorld demoCtx demoWorkOrders[i]).val = .ok csvs[i]) ∧
      (∀ idx, demoWorld.osCreate "output.xlsx" = .ok () →
        demoWorld.newSheet "Work Orders" = .ok idx →
        ∃ rest, (writeReport demoWorld csvs).trace =
          Event.createFile "output.xlsx" ::
            ((([ ⟨"Work Orders", "A1", "Service Provider Reference"⟩,
                 ⟨"Work Orders", "B1", "Network Owner Reference"⟩,
                 ⟨"Work Orders", "C1", "Status"⟩,
                 ⟨"Work Orders", "D1", "Subscription Created At"⟩,
                 ⟨"Work Orders", "E1", "Work Order Completed At"⟩,
                 ⟨"Work Orders", "F1", "ONT Sent At"⟩ ] : List CellWrite) ++
              (csvs.enum.map (fun p =>
                ([ ⟨"Work Orders", "A" ++ toString (p.1 + 2), p.2.ServiceProviderReference⟩,
                   ⟨"Work Orders", "B" ++ toString (p.1 + 2), p.2.NetworkOwnerReference⟩,
                   ⟨"Work Orders", "C" ++ toString (p.1 + 2), p.2.Status⟩,
                   ⟨"Work Orders", "D" ++ toString (p.1 + 2), p.2.SubscriptionCreatedAt⟩,
                   ⟨"Work Orders", "E" ++ toString (p.1 + 2), p.2.WorkOrderCompletedAt⟩,
                   ⟨"Work Orders", "F" ++ toString (p.1 + 2), p.2.ONTSentAt⟩ ] :
                  List CellWrite))).flatten).map Event.setCell) ++ rest) :=
  ⟨rfl, by decide, rfl, rfl, aggregate_one_record_per_work_order demoWorld demoCtx
    demoWorkOrders ⟨"Europe/Vienna"⟩ rfl (by decide)⟩

/-- C8, as stated, fails at three runs in which no fetch returns an error. Without the
time-zone database the loop panics on the first present timestamp and produces no record.
With an access-point response that carries no message the loop panics on the nil pointer and
produces no record. With every record built but `os.Create` failing, the run panics before
any cell is written. -/
theorem aggregate_preconditions_counterexample :
    ((∀ wo ∈ [woCancelled], fetchesSucceed noZoneWorld wo = true) ∧
      (aggregate noZoneWorld demoCtx [woCancelled] []).val =
        .error "could not load Europe/Vienna location: unknown time zone Europe/Vienna" ∧
      ∀ csvs, (aggregate noZoneWorld demoCtx [woCancelled] []).val ≠ .ok csvs) ∧
    (fetchFails noAccessPointWorld woCancelled = false ∧
      noAccessPointWorld.loadLocation "Europe/Vienna" = .ok ⟨"Europe/Vienna"⟩ ∧
      (aggregate noAccessPointWorld demoCtx [woCancelled] []).val =
        .error "runtime error: invalid memory address or nil pointer dereference") ∧
    ((∀ wo ∈ demoWorkOrders, fetchesSucceed noFileWorld wo = true) ∧
      noFileWorld.loadLocation "Europe/Vienna" = .ok ⟨"Europe/Vienna"⟩ ∧
      noFileWorld.woGet = .ok demoWorkOrders ∧
      (A1.main noFileWorld).val = .error "open output.xlsx: permission denied" ∧
      (A1.main noFileWorld).trace.all (fun e => !e.isOutput) = true) := by
  refine ⟨⟨by decide, rfl, ?_⟩, ⟨rfl, rfl, rfl⟩, ⟨by decide, rfl, rfl, rfl, rfl⟩⟩
  intro csvs h
  have h' : (aggregate noZoneWorld demoCtx [woCancelled] []).val =
      .error "could not load Europe/Vienna location: unknown time zone Europe/Vienna" := rfl
  rw [h'] at h
  cases h

/-- The credential path of both programs: every outbound call carries the bearer credential
and the fiber-operator id resolved from the configuration with a fallback to the environment
variable, and when the credential is empty in both places the run ends with the panic
"vault token is not set" before any event, so before any network call. -/
theorem credential_resolution (w : World) :
    (∀ c m a, Event.rpc c m a ∈ (A1.main w).trace ∨ Event.rpc c m a ∈ (Kelag.main w).trace →
      c = ⟨resolvedToken w, resolvedActor w⟩) ∧
    (w.viperGetString "vault-token" = "" → w.osGetenv "VAULT_TOKEN" = "" →
      (A1.main w).trace = [] ∧ (A1.main w).val = .error "vault token is not set" ∧
      (Kelag.main w).trace = [] ∧ (Kelag.main w).val = .error "vault token is not set") := by
  constructor
  · intro c m a h
    have hP1 := main_traceAll
      (fun e => ∀ c m a, e = Event.rpc c m a → c = ⟨resolvedToken w, resolvedActor w⟩) w
      (fun _ _ _ _ h => by cases h) (fun _ _ _ _ _ h => by cases h)
      (fun _ _ _ _ _ h => by cases h; rfl) (fun _ _ _ _ h => by cases h)
      (fun _ _ _ _ h => by cases h)
      (fun _ _ _ _ _ h => by cases h) (fun _ _ _ _ h => by cases h)
    have hP2 := kelag_main_traceAll
      (fun e => ∀ c m a, e = Event.rpc c m a → c = ⟨resolvedToken w, resolvedActor w⟩) w
      (fun _ _ _ _ h => by cases h) (fun _ _ _ _ _ h => by cases h; rfl)
    rcases h with h | h
    · exact hP1.all _ h c m a rfl
    · exact hP2.all _ h c m a rfl
  · intro h1 h2
    obtain ⟨ha, hk⟩ := main_no_token w h1 h2
    rw [ha, hk]
    exact ⟨rfl, rfl, rfl, rfl⟩

theorem credential_resolution_witness :
    noTokenWorld.viperGetString "vault-token" = "" ∧
    noTokenWorld.osGetenv "VAULT_TOKEN" = "" ∧
    (A1.main noTokenWorld).trace = [] ∧
    (A1.main noTokenWorld).val = .error "vault token is not set" ∧
    (Kelag.main noTokenWorld).trace = [] ∧
    (Kelag.main noTokenWorld).val = .error "vault token is not set" :=
  ⟨rfl, rfl, (credential_resolution noTokenWorld).2 rfl rfl⟩

/-- C9: the code at the failing input. With a credential but no fiber-operator id in the
configuration or the environment, neither program raises a startup error: both go on to
their network calls with an empty actor id and end normally, whereas the credential resolved
by the same idiom a few lines above is checked and its absence is fatal. -/
theorem missing_actor_not_fatal :
    noActorWorld.viperGetString "fiber-operator-id" = "" ∧
    noActorWorld.osGetenv "FIBER_OPERATOR_ID" = "" ∧
    (A1.main noActorWorld).trace.take 2 =
      [.dial "localhost:9999", .rpc ⟨"tok", ""⟩ "WorkOrderService.Get" ""] ∧
    (A1.main noActorWorld).val = .ok () ∧
    (Kelag.main noActorWorld).trace.take 2 =
      [.dial "localhost:9999", .rpc ⟨"tok", ""⟩ "inventory.GetPops" ""] ∧
    (Kelag.main noActorWorld).val = .ok () :=
  ⟨rfl, rfl, rfl, rfl, rfl, rfl⟩

/-- C10: if, for some work order of the fetched list (any status, any position), the
subscription, access-point or installation fetch returns an error, the run of `main` ends in
a panic, the aggregation loop yields no record list, and the trace of the run holds no
output event: the file is not created, no sheet is saved, nothing is printed. -/
theorem fetch_failure_aborts_run (w : World) (wos : List WorkOrder) (wo : WorkOrder)
    (hwos : w.woGet = .ok wos) (hmem : wo ∈ wos) (hfail : fetchFails w wo = true) :
    (∃ msg, (A1.main w).val = .error msg) ∧
    (∀ e ∈ (A1.main w).trace, e.isOutput = false) ∧
    (∀ ctx csvs, ∃ msg, (aggregate w ctx wos csvs).val = .error msg) := by
  have h := main_failsQuietly w wos wo hwos hmem hfail
  refine ⟨h.err, h.quiet.all, ?_⟩
  intro ctx csvs
  exact (aggregate_failsQuietly w ctx wos csvs wo hmem hfail).err

theorem fetch_failure_aborts_run_witness :
    brokenWorld.woGet = .ok [woActivated, woSent, woBroken] ∧
    woBroken.Status = WorkOrderStatus.STATUS_CANCELLED ∧
    fetchFails brokenWorld woBroken = true ∧
    (A1.main brokenWorld).val =
      .error "failed to get installation by ID i-gone: installation not found" ∧
    ((∃ msg, (A1.main brokenWorld).val = .error msg) ∧
      (∀ e ∈ (A1.main brokenWorld).trace, e.isOutput = false) ∧
      (∀ ctx csvs, ∃ msg,
        (aggregate brokenWorld ctx [woActivated, woSent, woBroken] csvs).val = .error msg)) :=
  ⟨rfl, rfl, rfl, rfl, fetch_failure_aborts_run brokenWorld [woActivated, woSent, woBroken]
    woBroken rfl (by decide) rfl⟩

end Reports
